import Mathlib

/-!
Verification of the PodNodeConstraints admission plugin
(`pkg/scheduler/admission/podnodeconstraints/admission.go`).

The Go code is embedded shallowly:
* Go maps used for iteration (`ps.NodeSelector`) become association lists
  whose list order models the map's iteration order.
* The `resourcesToAdmit` map becomes an association list queried by lookup.
* The admission client (`client.LocalSubjectAccessReviews(ns).Create(sar)`)
  becomes a function parameter `Gate`; a Go `(*Response, error)` pair becomes
  `Except Err (Option SubjectAccessReviewResponse)` (a `nil` response with a
  `nil` error is `.ok none`).
* Functions that may call the gate return `Option Err × Nat`; the `Nat`
  counts gate invocations (the Go code makes at most one per call).
  `none` in the first component is Go's `nil` error, i.e. "allow".
-/

namespace PodNodeConstraints

/-- `unversioned.GroupResource`. -/
structure GroupResource where
  group : String
  resource : String
deriving DecidableEq, BEq, Repr

/-- `unversioned.GroupKind`. -/
structure GroupKind where
  group : String
  kind : String
deriving DecidableEq, BEq, Repr

/-- `kapi.Resource(r)`: the legacy kubernetes API group is the empty string. -/
def kapiResource (r : String) : GroupResource := ⟨"", r⟩

/-- `kapi.Kind(k)`. -/
def kapiKind (k : String) : GroupKind := ⟨"", k⟩

/-- `extensions.Resource(r)`: the extensions API group. -/
def extensionsResource (r : String) : GroupResource := ⟨"extensions", r⟩

/-- `extensions.Kind(k)`. -/
def extensionsKind (k : String) : GroupKind := ⟨"extensions", k⟩

/-- `deployapi.Resource(r)`: the legacy openshift API group is the empty string. -/
def deployapiResource (r : String) : GroupResource := ⟨"", r⟩

/-- `deployapi.Kind(k)`. -/
def deployapiKind (k : String) : GroupKind := ⟨"", k⟩

/-- `admission.Operation` (the values the plugin distinguishes). -/
inductive Operation where
  | create
  | update
  | delete
  | connect
deriving DecidableEq, BEq, Repr

/-- The part of `kapi.PodSpec` the plugin reads.  `nodeSelector` is a Go map;
its list order models the map's iteration order (keys are unique in a map,
but nothing below assumes it). -/
structure PodSpec where
  nodeName : String
  nodeSelector : List (String × String)
deriving DecidableEq, BEq, Repr

/-- `api.PodNodeConstraintsConfig`. -/
structure PodNodeConstraintsConfig where
  nodeSelectorLabelBlacklist : List String
deriving DecidableEq, BEq, Repr

/-- The runtime shapes `getPodSpec` dispatches on: the six workload kinds
carrying a pod spec, and anything else (`other`), for which no pod spec is
available. -/
inductive RuntimeObject where
  | pod (spec : PodSpec)
  | replicationController (templateSpec : PodSpec)
  | deployment (templateSpec : PodSpec)
  | replicaSet (templateSpec : PodSpec)
  | job (templateSpec : PodSpec)
  | deploymentConfig (templateSpec : PodSpec)
  | other
deriving DecidableEq, BEq, Repr

/-- The fields of `admission.Attributes` the plugin reads. -/
structure Attributes where
  resource : GroupResource
  kind : GroupKind
  namespc : String
  name : String
  operation : Operation
  subresource : String
  userName : String
  userGroups : List String
  object : RuntimeObject
deriving DecidableEq, BEq, Repr

/-- `authorizationapi.SubjectAccessReviewResponse`. -/
structure SubjectAccessReviewResponse where
  allowed : Bool
  reason : String
deriving DecidableEq, BEq, Repr

/-- `authorizationapi.LocalSubjectAccessReview` (the fields the plugin sets:
`Action.Verb`, `Action.Resource`, `Action.ResourceName`, `User`, `Groups`). -/
structure LocalSubjectAccessReview where
  verb : String
  resource : String
  resourceName : String
  user : String
  groups : List String
deriving DecidableEq, BEq, Repr

/-- The Go `error` values this plugin returns or propagates:
kind-mismatch errors from `shouldAdmitResource`, internal errors from
`getPodSpec`, forbidden errors from `admission.NewForbidden`, and errors
originating from the authorization client (propagated as-is). -/
inductive Err where
  | unexpectedKind (kind : GroupKind) (resource : GroupResource)
  | internalError (msg : String)
  | forbidden (reason : String)
  | external (msg : String)
deriving DecidableEq, BEq, Repr

/-- The injected authorization client: given the request namespace and a
subject access review, either fail with an error or return an optional
(possibly nil) response — Go's `(*SubjectAccessReviewResponse, error)`. -/
def Gate : Type :=
  String → LocalSubjectAccessReview → Except Err (Option SubjectAccessReviewResponse)

/-- The `resourcesToAdmit` map, as an association list. -/
def resourcesToAdmit : List (GroupResource × GroupKind) :=
  [ (kapiResource "pods", kapiKind "Pod"),
    (kapiResource "replicationcontrollers", kapiKind "ReplicationController"),
    (extensionsResource "deployments", extensionsKind "Deployment"),
    (extensionsResource "replicasets", extensionsKind "ReplicaSet"),
    (extensionsResource "jobs", extensionsKind "Job"),
    (deployapiResource "deploymentconfigs", deployapiKind "DeploymentConfig") ]

/-- `shouldAdmitResource`: Go returns `(bool, error)`; here `.ok b` is
`(b, nil)` and `.error e` is `(false, e)` (the caller checks the error
first, so the bool in the error case is never read). -/
def shouldAdmitResource (resource : GroupResource) (kind : GroupKind) :
    Except Err Bool :=
  match resourcesToAdmit.lookup resource with
  | none => .ok false
  | some expectedKind =>
      if expectedKind ≠ kind then .error (.unexpectedKind kind resource)
      else .ok true

/-- `getPodSpec`: dispatch on the runtime shape of the supplied object;
for any shape other than the six workload kinds, an internal error. -/
def getPodSpec (obj : RuntimeObject) : Except Err PodSpec :=
  match obj with
  | .pod s => .ok s
  | .replicationController s => .ok s
  | .deployment s => .ok s
  | .replicaSet s => .ok s
  | .job s => .ok s
  | .deploymentConfig s => .ok s
  | .other =>
      .error (.internalError "No PodSpec available for supplied admission attribute")

/-- `checkPodsBindAccess`: build the subject access review and call the
client with the request namespace. -/
def checkPodsBindAccess (client : Gate) (attr : Attributes) :
    Except Err (Option SubjectAccessReviewResponse) :=
  let sar : LocalSubjectAccessReview :=
    { verb := "create"
      resource := "pods/binding"
      resourceName := attr.name
      user := attr.userName
      groups := attr.userGroups }
  client attr.namespc sar

/-- The nodeSelector blacklist filter of `admitPodSpec`: the outer loop
ranges over the selector map (in its iteration order, here the list
order), the inner loop over the blacklist; every blacklist entry equal
to the selector key is appended. -/
def matchingLabels (blacklist : List String)
    (nodeSelector : List (String × String)) : List String :=
  if nodeSelector.length > 0 then
    nodeSelector.foldl
      (fun acc kv => acc ++ blacklist.filter (fun bl => bl == kv.1)) []
  else []

/-- Go's `fmt` rendering of a `[]string` under `%v`. -/
def goFmtStringSlice (xs : List String) : String :=
  "[" ++ String.intercalate " " xs ++ "]"

/-- `admitPodSpec`: decide the extracted pod spec; the second component
counts authorization-gate invocations. -/
def admitPodSpec (config : PodNodeConstraintsConfig) (client : Gate)
    (attr : Attributes) (ps : PodSpec) : Option Err × Nat :=
  let lbls := matchingLabels config.nodeSelectorLabelBlacklist ps.nodeSelector
  if ps.nodeName.length > 0 ∨ lbls.length > 0 then
    match checkPodsBindAccess client attr with
    | .error e => (some e, 1)
    | .ok allow =>
        match allow with
        | none => (none, 1)
        | some a =>
            if !a.allowed then
              if ps.nodeName.length > 0 ∧ lbls.length = 0 then
                (some (.forbidden
                  "node selection by nodeName is prohibited by policy for your role"), 1)
              else if ps.nodeName.length = 0 ∧ lbls.length > 0 then
                (some (.forbidden
                  ("node selection by label(s) " ++ goFmtStringSlice lbls ++
                    " is prohibited by policy for your role")), 1)
              else if ps.nodeName.length > 0 ∧ lbls.length > 0 then
                (some (.forbidden
                  ("node selection by nodeName and label(s) " ++ goFmtStringSlice lbls ++
                    " is prohibited by policy for your role")), 1)
              else (none, 1)
            else (none, 1)
  else (none, 0)

/-- `Admit`: the plugin entry point.  A `none` config is the disabled
sentinel (`o.config == nil`).  The second component counts
authorization-gate invocations. -/
def Admit (config : Option PodNodeConstraintsConfig) (client : Gate)
    (attr : Attributes) : Option Err × Nat :=
  match config with
  | none => (none, 0)
  | some cfg =>
      if attr.subresource ≠ "" then (none, 0)
      else
        match shouldAdmitResource attr.resource attr.kind with
        | .error e => (some e, 0)
        | .ok shouldAdmit =>
            if !shouldAdmit then (none, 0)
            else if attr.resource = kapiResource "pods" ∧ attr.operation ≠ .create then
              (none, 0)
            else
              match getPodSpec attr.object with
              | .ok ps => admitPodSpec cfg client attr ps
              | .error e => (some e, 0)

/-! Example inputs used by witnesses and counterexamples. -/

/-- A client whose review response always denies. -/
def denyGate : Gate := fun _ _ => .ok (some { allowed := false, reason := "" })

/-- A client whose review response always allows. -/
def allowGate : Gate := fun _ _ => .ok (some { allowed := true, reason := "" })

/-- A client whose call fails with a transport error. -/
def errGate : Gate := fun _ _ => .error (.external "transport failure")

/-- A client returning a nil response together with a nil error. -/
def nilGate : Gate := fun _ _ => .ok none

/-- The configuration used by the plugin's unit tests: a one-entry blacklist. -/
def testConfig : PodNodeConstraintsConfig := ⟨["bogus"]⟩

/-- Attributes of a create/update request against the bare pods resource. -/
def podAttributes (obj : RuntimeObject) (op : Operation) : Attributes :=
  { resource := kapiResource "pods"
    kind := kapiKind "Pod"
    namespc := "default"
    name := "test"
    operation := op
    subresource := ""
    userName := "u"
    userGroups := []
    object := obj }

/-! Helper lemmas. -/

/-- Folding list append over a function is concatenation of its images. -/
theorem foldl_append_eq_bind {α β : Type} (f : α → List β) (l : List α)
    (acc : List β) :
    l.foldl (fun a x => a ++ f x) acc = acc ++ l.flatMap f := by
  induction l generalizing acc with
  | nil => simp
  | cons x xs ih => simp [List.foldl_cons, ih, List.flatMap_cons]

/-- The nested loops of the blacklist filter, written as one bind. -/
theorem matchingLabels_eq_bind (blacklist : List String)
    (nodeSelector : List (String × String)) :
    matchingLabels blacklist nodeSelector =
      nodeSelector.flatMap (fun kv => blacklist.filter (fun bl => bl == kv.1)) := by
  unfold matchingLabels
  rcases nodeSelector with _ | ⟨kv, rest⟩
  · simp
  · simp [foldl_append_eq_bind]

/-- If no selector key occurs in the blacklist, no label matches. -/
theorem matchingLabels_eq_nil (blacklist : List String)
    (nodeSelector : List (String × String))
    (h : ∀ kv ∈ nodeSelector, kv.1 ∉ blacklist) :
    matchingLabels blacklist nodeSelector = [] := by
  rw [matchingLabels_eq_bind]
  rw [List.flatMap_eq_nil_iff]
  intro kv hkv
  rw [List.filter_eq_nil_iff]
  intro bl hbl
  simp only [beq_iff_eq]
  intro hEq
  exact h kv hkv (hEq ▸ hbl)

/-- With an empty blacklist no label ever matches. -/
theorem matchingLabels_nil_blacklist (nodeSelector : List (String × String)) :
    matchingLabels [] nodeSelector = [] :=
  matchingLabels_eq_nil [] nodeSelector (by simp)

/-- Evaluating `Admit` down to `admitPodSpec` once classification and
extraction succeed and the bare-pods Update bypass does not apply. -/
theorem Admit_reaches_podspec (cfg : PodNodeConstraintsConfig) (client : Gate)
    (attr : Attributes) (ps : PodSpec)
    (hsub : attr.subresource = "")
    (hres : shouldAdmitResource attr.resource attr.kind = .ok true)
    (hpods : ¬(attr.resource = kapiResource "pods" ∧ attr.operation ≠ .create))
    (hobj : getPodSpec attr.object = .ok ps) :
    Admit (some cfg) client attr = admitPodSpec cfg client attr ps := by
  unfold Admit
  simp [hsub, hres, hobj, hpods]

/-- When neither the node name nor a matched label requires authorization,
`admitPodSpec` allows without calling the gate. -/
theorem admitPodSpec_no_auth (cfg : PodNodeConstraintsConfig) (client : Gate)
    (attr : Attributes) (ps : PodSpec)
    (hnn : ps.nodeName = "")
    (hml : matchingLabels cfg.nodeSelectorLabelBlacklist ps.nodeSelector = []) :
    admitPodSpec cfg client attr ps = (none, 0) := by
  unfold admitPodSpec
  simp [hnn, hml]

/-! Claim theorems. -/

/-- C2: the matched-label sequence is not independent of the iteration
order of the selector mapping, and blacklist duplicates are not
collapsed: with blacklist `[a, b]`, the selector mapping
`{b ↦ v, a ↦ w}` yields `[b, a]` under one iteration order and `[a, b]`
under the other (a permutation of the same mapping), and a duplicated
blacklist entry is reported twice. -/
theorem c2_selector_iteration_order :
    matchingLabels ["a", "b"] [("b", "v"), ("a", "w")] = ["b", "a"] ∧
    matchingLabels ["a", "b"] [("a", "w"), ("b", "v")] = ["a", "b"] ∧
    List.Perm [("b", "v"), ("a", "w")] [("a", "w"), ("b", "v")] ∧
    matchingLabels ["a", "a"] [("a", "w")] = ["a", "a"] :=
  ⟨by decide, by decide, List.Perm.swap ("a", "w") ("b", "v") [], by decide⟩

/-- C5: `Admit` is deterministic — two calls with identical config and
attributes, against clients that give the same stable response on every
query, return identical decisions. -/
theorem c5_deterministic (config : Option PodNodeConstraintsConfig)
    (client1 client2 : Gate) (attr : Attributes)
    (h : ∀ ns sar, client1 ns sar = client2 ns sar) :
    Admit config client1 attr = Admit config client2 attr := by
  have hg : client1 = client2 := funext fun ns => funext fun sar => h ns sar
  rw [hg]

/-- A second denying client, written separately from `denyGate`, for the
determinism witness. -/
def denyGateBis : Gate := fun _ _ =>
  Except.ok (some { allowed := false, reason := "" })

/-- C5 witness: the two stable denying clients agree on every query, and the
two calls of `Admit` on a node-named pod return the same decision. -/
theorem c5_deterministic_witness :
    Admit (some testConfig) denyGate (podAttributes (.pod ⟨"frank", []⟩) .create) =
      Admit (some testConfig) denyGateBis (podAttributes (.pod ⟨"frank", []⟩) .create) :=
  c5_deterministic _ _ _ _ (fun _ _ => rfl)

/-- C6: with an absent config, a non-empty subresource, or a resource type
that is not one of the six recognized kinds, `Admit` allows with zero
authorization-gate invocations. -/
theorem c6_unconditional_bypass (config : Option PodNodeConstraintsConfig)
    (client : Gate) (attr : Attributes)
    (h : config = none ∨ attr.subresource ≠ "" ∨
      resourcesToAdmit.lookup attr.resource = none) :
    Admit config client attr = (none, 0) := by
  rcases config with _ | cfg
  · rfl
  · rcases h with h | h | h
    · exact absurd h (by simp)
    · unfold Admit
      simp [h]
    · unfold Admit
      by_cases hs : attr.subresource = ""
      · simp [hs, shouldAdmitResource, h]
      · simp [hs]

/-- C6 witness: a resource-quota request (an unrecognized resource type)
bypasses with zero gate invocations. -/
theorem c6_unconditional_bypass_witness :
    Admit (some testConfig) denyGate
      { resource := kapiResource "resourcequotas"
        kind := kapiKind "ResourceQuota"
        namespc := "default"
        name := "test"
        operation := .create
        subresource := ""
        userName := "u"
        userGroups := []
        object := .other } = (none, 0) :=
  c6_unconditional_bypass _ _ _ (Or.inr (Or.inr (by decide)))

/-- C8: when the evaluation reaches the authorization gate and the gate
call fails, `Admit` returns the gate's error value unchanged — it is
neither an allow decision nor a forbidden result built from it. -/
theorem c8_gate_error_propagated (cfg : PodNodeConstraintsConfig)
    (client : Gate) (attr : Attributes) (ps : PodSpec) (e : Err)
    (hsub : attr.subresource = "")
    (hres : shouldAdmitResource attr.resource attr.kind = .ok true)
    (hpods : ¬(attr.resource = kapiResource "pods" ∧ attr.operation ≠ .create))
    (hobj : getPodSpec attr.object = .ok ps)
    (hreq : ps.nodeName.length > 0 ∨
      (matchingLabels cfg.nodeSelectorLabelBlacklist ps.nodeSelector).length > 0)
    (hgate : checkPodsBindAccess client attr = .error e) :
    Admit (some cfg) client attr = (some e, 1) := by
  rw [Admit_reaches_podspec cfg client attr ps hsub hres hpods hobj]
  simp [admitPodSpec, hgate, hreq]

/-- C8 witness: a failing client's transport error surfaces verbatim from
a create of a node-named pod. -/
theorem c8_gate_error_propagated_witness :
    Admit (some testConfig) errGate (podAttributes (.pod ⟨"frank", []⟩) .create) =
      (some (.external "transport failure"), 1) :=
  c8_gate_error_propagated _ _ _ ⟨"frank", []⟩ _ rfl rfl (by decide) rfl
    (Or.inl (by decide)) rfl

/-- A request whose extracted pod spec has neither a node name nor a
matched blacklist label is allowed with zero gate invocations, as long as
classification raises no kind-mismatch fault. -/
theorem Admit_allows_of_unconstrained (cfg : PodNodeConstraintsConfig)
    (client : Gate) (attr : Attributes) (ps : PodSpec)
    (hobj : getPodSpec attr.object = .ok ps)
    (hkind : ∃ b, shouldAdmitResource attr.resource attr.kind = .ok b)
    (hnn : ps.nodeName = "")
    (hml : matchingLabels cfg.nodeSelectorLabelBlacklist ps.nodeSelector = []) :
    Admit (some cfg) client attr = (none, 0) := by
  obtain ⟨b, hb⟩ := hkind
  have hps : admitPodSpec cfg client attr ps = (none, 0) :=
    admitPodSpec_no_auth cfg client attr ps hnn hml
  unfold Admit
  by_cases hs : attr.subresource = ""
  · cases b with
    | false => simp [hs, hb]
    | true =>
      by_cases hp : attr.resource = kapiResource "pods" ∧ attr.operation ≠ .create
      · simp only [hs, hb]
        rw [if_pos hp]
        simp
      · simp [hs, hb, hp, hobj, hps]
  · simp [hs]

/-- C9: a pod spec with an empty node name and no selector key in the
blacklist is allowed without any authorization-gate call (for any request
that classifies without a kind-mismatch fault). -/
theorem c9_unconstrained_spec_allows (cfg : PodNodeConstraintsConfig)
    (client : Gate) (attr : Attributes) (ps : PodSpec)
    (hobj : getPodSpec attr.object = .ok ps)
    (hkind : ∃ b, shouldAdmitResource attr.resource attr.kind = .ok b)
    (hnn : ps.nodeName = "")
    (hsel : ∀ kv ∈ ps.nodeSelector, kv.1 ∉ cfg.nodeSelectorLabelBlacklist) :
    Admit (some cfg) client attr = (none, 0) :=
  Admit_allows_of_unconstrained cfg client attr ps hobj hkind hnn
    (matchingLabels_eq_nil _ _ hsel)

/-- C9 witness: a pod with no node name and an off-blacklist selector is
allowed with zero gate invocations. -/
theorem c9_unconstrained_spec_allows_witness :
    Admit (some testConfig) denyGate
      (podAttributes (.pod ⟨"", [("color", "blue")]⟩) .create) = (none, 0) :=
  c9_unconstrained_spec_allows _ _ _ ⟨"", [("color", "blue")]⟩ rfl ⟨true, rfl⟩
    rfl (by decide)

/-- C10: a nil gate response with a nil error is treated as allow — even
when authorization was required, `Admit` returns no deny and no error
(after one gate invocation). -/
theorem c10_nil_response_allows (cfg : PodNodeConstraintsConfig)
    (client : Gate) (attr : Attributes) (ps : PodSpec)
    (hsub : attr.subresource = "")
    (hres : shouldAdmitResource attr.resource attr.kind = .ok true)
    (hpods : ¬(attr.resource = kapiResource "pods" ∧ attr.operation ≠ .create))
    (hobj : getPodSpec attr.object = .ok ps)
    (hreq : ps.nodeName.length > 0 ∨
      (matchingLabels cfg.nodeSelectorLabelBlacklist ps.nodeSelector).length > 0)
    (hgate : checkPodsBindAccess client attr = .ok none) :
    Admit (some cfg) client attr = (none, 1) := by
  rw [Admit_reaches_podspec cfg client attr ps hsub hres hpods hobj]
  simp [admitPodSpec, hgate, hreq]

/-- C10 witness: the nil-response client lets a node-named pod through
after one gate call. -/
theorem c10_nil_response_allows_witness :
    Admit (some testConfig) nilGate (podAttributes (.pod ⟨"frank", []⟩) .create) =
      (none, 1) :=
  c10_nil_response_allows _ _ _ ⟨"frank", []⟩ rfl rfl (by decide) rfl
    (Or.inl (by decide)) rfl

/-- C1 counterexample: with a present config whose blacklist is empty, a
created pod carrying `nodeName = "frank"` is not allowed — the gate is
invoked once and, denying, yields a forbidden error. -/
theorem c1_counterexample :
    Admit (some ⟨[]⟩) denyGate (podAttributes (.pod ⟨"frank", []⟩) .create) =
      (some (.forbidden
        "node selection by nodeName is prohibited by policy for your role"), 1) := by
  decide

/-- C1 (amended): a nil config always allows with zero gate invocations;
a config with an empty blacklist allows with zero gate invocations
provided the admitted pod spec's node name is empty (any node selector),
the declared kind raising no mismatch fault. -/
theorem c1_disabled_or_empty_blacklist (config : Option PodNodeConstraintsConfig)
    (client : Gate) (attr : Attributes)
    (h : config = none ∨
      ∃ cfg ps, config = some cfg ∧ cfg.nodeSelectorLabelBlacklist = [] ∧
        (∃ b, shouldAdmitResource attr.resource attr.kind = .ok b) ∧
        getPodSpec attr.object = .ok ps ∧ ps.nodeName = "") :
    Admit config client attr = (none, 0) := by
  rcases h with h | ⟨cfg, ps, hcfg, hbl, hkind, hobj, hnn⟩
  · subst h
    rfl
  · subst hcfg
    refine Admit_allows_of_unconstrained cfg client attr ps hobj hkind hnn ?_
    rw [hbl]
    exact matchingLabels_nil_blacklist ps.nodeSelector

/-- C1 witness: an empty-blacklist config admits a pod with no node name
and an arbitrary selector, with zero gate invocations. -/
theorem c1_disabled_or_empty_blacklist_witness :
    Admit (some ⟨[]⟩) denyGate
      (podAttributes (.pod ⟨"", [("bogus", "x")]⟩) .create) = (none, 0) :=
  c1_disabled_or_empty_blacklist _ _ _
    (Or.inr ⟨⟨[]⟩, ⟨"", [("bogus", "x")]⟩, rfl, rfl, ⟨true, rfl⟩, rfl, rfl⟩)

/-- C3: once the evaluation requires authorization and the gate answers
with a response: allowed means allow with no reason; not allowed means a
forbidden error whose reason is picked by the case table on
(nodeName set, labels matched), whose three cases are mutually exclusive
and exhaustive. -/
theorem c3_decision_composer (cfg : PodNodeConstraintsConfig) (client : Gate)
    (attr : Attributes) (ps : PodSpec) (resp : SubjectAccessReviewResponse)
    (ml : List String)
    (hml : ml = matchingLabels cfg.nodeSelectorLabelBlacklist ps.nodeSelector)
    (hreq : ps.nodeName.length > 0 ∨ ml.length > 0)
    (hgate : checkPodsBindAccess client attr = .ok (some resp)) :
    (resp.allowed = true → admitPodSpec cfg client attr ps = (none, 1)) ∧
    (resp.allowed = false →
      (ps.nodeName.length > 0 ∧ ml.length = 0 →
        admitPodSpec cfg client attr ps = (some (.forbidden
          "node selection by nodeName is prohibited by policy for your role"), 1)) ∧
      (ps.nodeName.length = 0 ∧ ml.length > 0 →
        admitPodSpec cfg client attr ps = (some (.forbidden
          ("node selection by label(s) " ++ goFmtStringSlice ml ++
            " is prohibited by policy for your role")), 1)) ∧
      (ps.nodeName.length > 0 ∧ ml.length > 0 →
        admitPodSpec cfg client attr ps = (some (.forbidden
          ("node selection by nodeName and label(s) " ++ goFmtStringSlice ml ++
            " is prohibited by policy for your role")), 1))) ∧
    ((ps.nodeName.length > 0 ∧ ml.length = 0) ∨
      (ps.nodeName.length = 0 ∧ ml.length > 0) ∨
      (ps.nodeName.length > 0 ∧ ml.length > 0)) ∧
    (¬((ps.nodeName.length > 0 ∧ ml.length = 0) ∧
        (ps.nodeName.length = 0 ∧ ml.length > 0)) ∧
     ¬((ps.nodeName.length > 0 ∧ ml.length = 0) ∧
        (ps.nodeName.length > 0 ∧ ml.length > 0)) ∧
     ¬((ps.nodeName.length = 0 ∧ ml.length > 0) ∧
        (ps.nodeName.length > 0 ∧ ml.length > 0))) := by
  subst hml
  refine ⟨?_, fun ha => ⟨?_, ?_, ?_⟩, by omega, by omega⟩
  · intro ha
    simp only [admitPodSpec, hgate]
    rw [if_pos hreq, ha]
    simp
  · rintro ⟨h1, h2⟩
    simp only [admitPodSpec, hgate]
    rw [if_pos hreq, ha]
    simp only [Bool.not_false, if_true]
    rw [if_pos ⟨h1, h2⟩]
  · rintro ⟨h1, h2⟩
    simp only [admitPodSpec, hgate]
    rw [if_pos hreq, ha]
    simp only [Bool.not_false, if_true]
    rw [if_neg (by omega), if_pos ⟨h1, h2⟩]
  · rintro ⟨h1, h2⟩
    simp only [admitPodSpec, hgate]
    rw [if_pos hreq, ha]
    simp only [Bool.not_false, if_true]
    rw [if_neg (by omega), if_neg (by omega), if_pos ⟨h1, h2⟩]

/-- C3 witness: a denied review on a pod with both a node name and a
blacklisted selector label produces the combined forbidden reason. -/
theorem c3_decision_composer_witness :
    admitPodSpec testConfig denyGate
      (podAttributes (.pod ⟨"frank", [("bogus", "frank")]⟩) .create)
      ⟨"frank", [("bogus", "frank")]⟩ =
      (some (.forbidden
        ("node selection by nodeName and label(s) [bogus] is prohibited by policy for your role")),
        1) :=
  ((c3_decision_composer testConfig denyGate
      (podAttributes (.pod ⟨"frank", [("bogus", "frank")]⟩) .create)
      ⟨"frank", [("bogus", "frank")]⟩ ⟨false, ""⟩ ["bogus"]
      (by decide) (Or.inl (by decide)) rfl).2.1 rfl).2.2 (by decide)

/-- `admitPodSpec` never reads the request's operation. -/
theorem admitPodSpec_op_independent (cfg : PodNodeConstraintsConfig)
    (client : Gate) (attr : Attributes) (ps : PodSpec) (op : Operation) :
    admitPodSpec cfg client { attr with operation := op } ps =
      admitPodSpec cfg client attr ps := rfl

/-- On any resource other than bare pods, `Admit` never reads the
request's operation. -/
theorem Admit_op_independent (cfg : PodNodeConstraintsConfig) (client : Gate)
    (attr : Attributes) (op : Operation)
    (h : attr.resource ≠ kapiResource "pods") :
    Admit (some cfg) client { attr with operation := op } =
      Admit (some cfg) client attr := by
  unfold Admit
  cases hsr : shouldAdmitResource attr.resource attr.kind with
  | error e => simp [hsr]
  | ok b =>
    cases hgp : getPodSpec attr.object with
    | error e => simp [hsr, hgp, h]
    | ok ps => simp [hsr, hgp, h, admitPodSpec_op_independent]

/-- C4: Update on the bare pods resource is bypassed with zero gate
invocations, while on each of the five wrapper resources the decision is
the same for every operation — in particular Update is evaluated
identically to Create on the same content. -/
theorem c4_operation_policy (cfg : PodNodeConstraintsConfig) (client : Gate)
    (attr : Attributes) :
    (attr.resource = kapiResource "pods" → attr.kind = kapiKind "Pod" →
      attr.operation = .update → Admit (some cfg) client attr = (none, 0)) ∧
    (attr.resource ∈ [kapiResource "replicationcontrollers",
        extensionsResource "deployments", extensionsResource "replicasets",
        extensionsResource "jobs", deployapiResource "deploymentconfigs"] →
      Admit (some cfg) client { attr with operation := .update } =
        Admit (some cfg) client { attr with operation := .create }) := by
  constructor
  · intro hr hk hop
    have hres : shouldAdmitResource (kapiResource "pods") (kapiKind "Pod") =
        .ok true := rfl
    unfold Admit
    by_cases hs : attr.subresource = ""
    · simp [hs, hr, hk, hop, hres]
    · simp [hs]
  · intro hmem
    have hne : attr.resource ≠ kapiResource "pods" := by
      simp only [List.mem_cons, List.not_mem_nil, or_false] at hmem
      rcases hmem with h | h | h | h | h <;> rw [h] <;> decide
    rw [Admit_op_independent cfg client attr .update hne,
      Admit_op_independent cfg client attr .create hne]

/-- Attributes of a replication-controller request (its template carrying
a blacklisted selector label), used by the C4 witness. -/
def rcAttributes (op : Operation) : Attributes :=
  { resource := kapiResource "replicationcontrollers"
    kind := kapiKind "ReplicationController"
    namespc := "default"
    name := "test"
    operation := op
    subresource := ""
    userName := "u"
    userGroups := []
    object := .replicationController ⟨"", [("bogus", "frank")]⟩ }

/-- C4 witness: Update on a node-named bare pod is bypassed, and on a
replication controller Update and Create decide identically. -/
theorem c4_operation_policy_witness :
    Admit (some testConfig) denyGate (podAttributes (.pod ⟨"frank", []⟩) .update) =
      (none, 0) ∧
    Admit (some testConfig) denyGate { rcAttributes .connect with operation := .update } =
      Admit (some testConfig) denyGate { rcAttributes .connect with operation := .create } :=
  ⟨(c4_operation_policy testConfig denyGate
      (podAttributes (.pod ⟨"frank", []⟩) .update)).1 rfl rfl rfl,
   (c4_operation_policy testConfig denyGate (rcAttributes .connect)).2
     (List.mem_cons_self _ _)⟩

/-- Attributes of a pods-resource create request whose object has the
replication-controller shape rather than the pod shape. -/
def podsRequestWithRCShape : Attributes :=
  { resource := kapiResource "pods"
    kind := kapiKind "Pod"
    namespc := "default"
    name := "test"
    operation := .create
    subresource := ""
    userName := "u"
    userGroups := []
    object := .replicationController ⟨"", []⟩ }

/-- C7 counterexample: a pods-resource request whose object's runtime
shape is the replication-controller shape — not the shape of its
classified variant — is not rejected with a hard error: extraction
follows the runtime shape and the request is allowed. -/
theorem c7_counterexample :
    podsRequestWithRCShape.resource = kapiResource "pods" ∧
    podsRequestWithRCShape.kind = kapiKind "Pod" ∧
    podsRequestWithRCShape.object = .replicationController ⟨"", []⟩ ∧
    Admit (some testConfig) denyGate podsRequestWithRCShape = (none, 0) :=
  ⟨rfl, rfl, rfl, by decide⟩

/-- C7 (amended): a declared kind differing from the expected kind of a
recognized resource yields the kind-mismatch hard error, and an object
whose runtime shape is none of the six recognized shapes yields the
internal extraction error; both are distinct from any policy denial and
involve zero gate invocations.  (An object of a recognized shape other
than its classified variant's is extracted by its runtime shape instead —
see the counterexample.) -/
theorem c7_amended_internal_faults (cfg : PodNodeConstraintsConfig)
    (client : Gate) (attr : Attributes) :
    (∀ expectedKind, attr.subresource = "" →
      resourcesToAdmit.lookup attr.resource = some expectedKind →
      attr.kind ≠ expectedKind →
      Admit (some cfg) client attr =
        (some (.unexpectedKind attr.kind attr.resource), 0) ∧
      ∀ r, Err.unexpectedKind attr.kind attr.resource ≠ .forbidden r) ∧
    (attr.subresource = "" →
      shouldAdmitResource attr.resource attr.kind = .ok true →
      ¬(attr.resource = kapiResource "pods" ∧ attr.operation ≠ .create) →
      attr.object = .other →
      Admit (some cfg) client attr =
        (some (.internalError "No PodSpec available for supplied admission attribute"), 0) ∧
      ∀ r, Err.internalError "No PodSpec available for supplied admission attribute" ≠
        .forbidden r) := by
  constructor
  · intro ek hs hlook hk
    have hk' : ek ≠ attr.kind := fun hEq => hk hEq.symm
    constructor
    · have hres : shouldAdmitResource attr.resource attr.kind =
          .error (.unexpectedKind attr.kind attr.resource) := by
        unfold shouldAdmitResource
        rw [hlook]
        simp [hk']
      unfold Admit
      simp [hs, hres]
    · intro r
      simp
  · intro hs hres hpods hobj
    constructor
    · unfold Admit
      rw [hobj] at *
      simp only [hs, hres]
      rw [if_neg (by simp [hs])]
      simp only [Bool.not_true, Bool.false_eq_true, if_false]
      rw [if_neg hpods]
      rfl
    · intro r
      simp

/-- Attributes of a pods-resource request whose declared kind is not the
expected Pod kind. -/
def mismatchedKindAttrs : Attributes :=
  { resource := kapiResource "pods"
    kind := kapiKind "ReplicationController"
    namespc := "default"
    name := "test"
    operation := .create
    subresource := ""
    userName := "u"
    userGroups := []
    object := .pod ⟨"", []⟩ }

/-- Attributes of a jobs-resource request whose object has none of the
six recognized shapes. -/
def otherShapeAttrs : Attributes :=
  { resource := extensionsResource "jobs"
    kind := extensionsKind "Job"
    namespc := "default"
    name := "test"
    operation := .create
    subresource := ""
    userName := "u"
    userGroups := []
    object := .other }

/-- C7 witness: the kind-mismatch request gets the kind-mismatch hard
error, and the unrecognized-shape request gets the internal extraction
error. -/
theorem c7_amended_internal_faults_witness :
    Admit (some testConfig) denyGate mismatchedKindAttrs =
      (some (.unexpectedKind (kapiKind "ReplicationController")
        (kapiResource "pods")), 0) ∧
    Admit (some testConfig) denyGate otherShapeAttrs =
      (some (.internalError "No PodSpec available for supplied admission attribute"), 0) :=
  ⟨((c7_amended_internal_faults testConfig denyGate mismatchedKindAttrs).1
      (kapiKind "Pod") rfl rfl (by decide)).1,
   ((c7_amended_internal_faults testConfig denyGate otherShapeAttrs).2
      rfl rfl (by decide) rfl).1⟩

end PodNodeConstraints
